import Mathlib

/-!
Verification of the Redropi_highway firmware core against its specification.

The servo positioner (src/Firmware/servo_controller.py) and the object
detector (src/Firmware/detection_ai.py) are shallowly embedded below.
Angles, areas, brightness and confidence values are modelled as rationals;
the GPIO hardware effect (PWM duty-cycle writes) is abstracted away, only
the stored axis state is tracked.  The hardware-availability guard at the
top of ServoController._move_servo_to_position is kept: the state carries
the `initialized` and `GPIO_AVAILABLE` flags.
-/

namespace Firmware

/-- The four servo axes of the positioner (keys of `servo_pins` / `limits`). -/
inductive Axis
  | dishAzimuth
  | dishElevation
  | cameraPan
  | cameraTilt
deriving DecidableEq, Repr, Fintype

/-- State of the real `ServoController`: the two hardware flags and the
`current_positions` dictionary (one rational angle per axis). -/
structure ServoState where
  isInit : Bool
  gpioAvail : Bool
  dish_azimuth : ℚ
  dish_elevation : ℚ
  camera_pan : ℚ
  camera_tilt : ℚ
deriving DecidableEq, Repr

/-- The `limits` table of `ServoController.__init__`. -/
def limits : Axis → ℚ × ℚ
  | .dishAzimuth => (0, 180)
  | .dishElevation => (0, 90)
  | .cameraPan => (0, 180)
  | .cameraTilt => (30, 150)

/-- Read `current_positions[axis]`. -/
def getPos (s : ServoState) : Axis → ℚ
  | .dishAzimuth => s.dish_azimuth
  | .dishElevation => s.dish_elevation
  | .cameraPan => s.camera_pan
  | .cameraTilt => s.camera_tilt

/-- Write `current_positions[axis] = v`. -/
def setPos (s : ServoState) (a : Axis) (v : ℚ) : ServoState :=
  match a with
  | .dishAzimuth => ⟨s.isInit, s.gpioAvail, v, s.dish_elevation, s.camera_pan, s.camera_tilt⟩
  | .dishElevation => ⟨s.isInit, s.gpioAvail, s.dish_azimuth, v, s.camera_pan, s.camera_tilt⟩
  | .cameraPan => ⟨s.isInit, s.gpioAvail, s.dish_azimuth, s.dish_elevation, v, s.camera_tilt⟩
  | .cameraTilt => ⟨s.isInit, s.gpioAvail, s.dish_azimuth, s.dish_elevation, s.camera_pan, v⟩

/-- `angle = max(min_angle, min(max_angle, angle))` of
`ServoController._move_servo_to_position`. -/
def clampAngle (a : Axis) (v : ℚ) : ℚ :=
  max (limits a).1 (min (limits a).2 v)

/-- `ServoController._move_servo_to_position` (lines 71-100): returns the
state unchanged when the controller is uninitialized or GPIO is missing;
otherwise clamps the angle to the axis limits and stores it (the PWM write
is a hardware effect with no bearing on the stored state). -/
def move_servo_to_position (s : ServoState) (a : Axis) (angle : ℚ) : ServoState :=
  if !s.isInit || !s.gpioAvail then s
  else setPos s a (clampAngle a angle)

/-- Python float `%` with positive modulus (used as `azimuth % 360`). -/
def fmod (a b : ℚ) : ℚ := a - b * (⌊a / b⌋ : ℚ)

/-- `ServoController.__init__` servo name lookup: membership in the
`servo_pins` dictionary decides whether a name is a known axis. -/
def axisOfName (name : String) : Option Axis :=
  if name = "dish_azimuth" then some .dishAzimuth
  else if name = "dish_elevation" then some .dishElevation
  else if name = "camera_pan" then some .cameraPan
  else if name = "camera_tilt" then some .cameraTilt
  else none

/-- `ServoController._smooth_move` (lines 132-154) with the default step
size 2.0: a bounded loop of `int(steps)` intermediate moves followed by a
final move to the exact target. -/
def smooth_move (s : ServoState) (a : Axis) (target : ℚ) : ServoState :=
  let current := getPos s a
  let dir : ℚ := if current < target then 1 else -1
  let steps : ℚ := |target - current| / 2
  let n : ℕ := ⌊steps⌋.toNat
  let s1 := (List.range n).foldl
    (fun st (i : ℕ) => move_servo_to_position st a (current + dir * 2 * ((i : ℚ) + 1))) s
  move_servo_to_position s1 a target

/-- `ServoController.move_servo` (lines 102-130): unknown names are
rejected with a `False` result and no state change; otherwise the move is
dispatched to the smooth or direct path and `True` is returned. -/
def move_servo (s : ServoState) (name : String) (angle : ℚ) (smooth : Bool) :
    ServoState × Bool :=
  match axisOfName name with
  | none => (s, false)
  | some a =>
    if smooth then (smooth_move s a angle, true)
    else (move_servo_to_position s a angle, true)

/-- `ServoController.move_dish_to_coordinates` (lines 156-183):
`servo_azimuth = (azimuth % 360) * 180 / 360`, then both dish axes are
moved with the default `smooth=True`. -/
def move_dish_to_coordinates (s : ServoState) (azimuth elevation : ℚ) :
    ServoState × Bool :=
  let servo_azimuth := fmod azimuth 360 * 180 / 360
  let r1 := move_servo s "dish_azimuth" servo_azimuth true
  let r2 := move_servo r1.1 "dish_elevation" elevation true
  (r2.1, r1.2 && r2.2)

/-- `ServoController.move_camera_to_coordinates` (lines 185-208). -/
def move_camera_to_coordinates (s : ServoState) (pan tilt : ℚ) :
    ServoState × Bool :=
  let r1 := move_servo s "camera_pan" pan true
  let r2 := move_servo r1.1 "camera_tilt" tilt true
  (r2.1, r1.2 && r2.2)

/-- A classification as consumed by the tracker: confidence plus the
normalized center coordinates. -/
structure Detection where
  confidence : ℚ
  coordinates : ℚ × ℚ
deriving DecidableEq, Repr

/-- `max(detections, key=lambda x: x.get('confidence', 0))`: Python `max`
keeps the first seen element among ties (only a strictly larger key
replaces the running maximum). -/
def primary_detection (best : Detection) : List Detection → Detection
  | [] => best
  | d :: rest =>
    primary_detection (if best.confidence < d.confidence then d else best) rest

/-- `ServoController.track_objects` (lines 210-246): no-op on an empty
list, else the maximum-confidence detection drives the camera axes and,
above confidence 0.8, also the dish axes. -/
def track_objects (s : ServoState) (detections : List Detection) : ServoState :=
  match detections with
  | [] => s
  | d :: rest =>
    let primary := primary_detection d rest
    let pan_angle := primary.coordinates.1 * 180
    let tilt_angle := 30 + primary.coordinates.2 * 120
    let s1 := (move_camera_to_coordinates s pan_angle tilt_angle).1
    if primary.confidence > 8/10 then
      let dish_azimuth := pan_angle * 2
      let dish_elevation := min 90 (tilt_angle - 30)
      (move_dish_to_coordinates s1 dish_azimuth dish_elevation).1
    else s1

/-- State of `MockServoController`: only `current_positions` (its
`__init__` sets neither `servo_pins` nor `limits`). -/
structure MockState where
  dish_azimuth : ℚ
  dish_elevation : ℚ
  camera_pan : ℚ
  camera_tilt : ℚ
deriving DecidableEq, Repr

/-- `MockServoController._move_servo_to_position` (lines 358-361): stores
the requested angle directly, without clamping. -/
def mock_move_servo_to_position (s : MockState) (a : Axis) (angle : ℚ) : MockState :=
  match a with
  | .dishAzimuth => ⟨angle, s.dish_elevation, s.camera_pan, s.camera_tilt⟩
  | .dishElevation => ⟨s.dish_azimuth, angle, s.camera_pan, s.camera_tilt⟩
  | .cameraPan => ⟨s.dish_azimuth, s.dish_elevation, angle, s.camera_tilt⟩
  | .cameraTilt => ⟨s.dish_azimuth, s.dish_elevation, s.camera_pan, angle⟩

/-- The initial positions of `ServoController.__init__`, with hardware
active (initialized and GPIO available). -/
def initServo : ServoState := ⟨true, true, 90, 45, 90, 90⟩

/-- The initial positions of `MockServoController.__init__`. -/
def mockInit : MockState := ⟨90, 45, 90, 90⟩

/-- Every stored axis angle lies within its declared inclusive limits. -/
def inRange (s : ServoState) : Prop :=
  ∀ a : Axis, (limits a).1 ≤ getPos s a ∧ getPos s a ≤ (limits a).2

instance (s : ServoState) : Decidable (inRange s) := by
  unfold inRange
  exact Fintype.decidableForallFintype

/-! ## Object detector (src/Firmware/detection_ai.py)

The OpenCV segmentation internals (background subtraction, morphology,
contour extraction) are external collaborators: the embedding starts from
the extracted contour list, each contour carrying its `contourArea` and
`boundingRect` data.  The region-of-interest mean-brightness computation
(the only fallible per-component step, `np.mean` over the bbox slice) is
an oracle returning `Except`, so that the `try/except` of
`classify_object` is modelled faithfully. -/

/-- The classifier categories (`non_meteor` / `meteor` / `asteroid`). -/
inductive ObjType
  | non_meteor
  | meteor
  | asteroid
deriving DecidableEq, Repr

/-- An external contour with its `cv2.contourArea` and `cv2.boundingRect`
data. -/
structure Contour where
  area : ℚ
  x : ℤ
  y : ℤ
  w : ℤ
  h : ℤ
deriving DecidableEq, Repr

/-- An element of the `detect_moving_objects` output list: area, bounding
box, aspect ratio (`w / h if h > 0 else 0`) and center
(`x + w//2, y + h//2`). -/
structure DetObj where
  area : ℚ
  bbox : ℤ × ℤ × ℤ × ℤ
  aspect : ℚ
  center : ℤ × ℤ
deriving DecidableEq, Repr

/-- `AsteroidDetector.detect_moving_objects` (lines 66-114): keeps exactly
the components with `50 < area < 5000` and computes their properties. -/
def detect_moving_objects (contours : List Contour) : List DetObj :=
  contours.filterMap fun c =>
    if 50 < c.area ∧ c.area < 5000 then
      some ⟨c.area, (c.x, c.y, c.w, c.h),
            if 0 < c.h then (c.w : ℚ) / (c.h : ℚ) else 0,
            (c.x + Int.fdiv c.w 2, c.y + Int.fdiv c.h 2)⟩
    else none

/-- A classification result dictionary (kind, confidence, pixel center,
bbox, area). -/
structure Classification where
  type : ObjType
  confidence : ℚ
  coordinates : ℤ × ℤ
  bbox : ℤ × ℤ × ℤ × ℤ
  area : ℚ
deriving DecidableEq, Repr

/-- `AsteroidDetector.heuristic_classification` (lines 160-186) as a
function of the features it reads: area, aspect ratio and mean
brightness. -/
def heuristic_classification (area aspect brightness : ℚ) : ObjType × ℚ :=
  if 200 < brightness ∧ 100 < area then
    if 2 < aspect then (.meteor, 8/10)
    else if 500 < area then (.asteroid, 7/10)
    else (.meteor, 6/10)
  else if 150 < brightness then (.meteor, 5/10)
  else (.non_meteor, 9/10)

/-- `AsteroidDetector.classify_object` (lines 116-158): the fallible
region work is the `roiMean` oracle; an error is caught locally and
produces the fallback record with kind `non_meteor` and confidence 0. -/
def classify_object (roiMean : DetObj → Except String ℚ) (obj : DetObj) :
    Classification :=
  match roiMean obj with
  | .ok b =>
    let c := heuristic_classification obj.area obj.aspect b
    ⟨c.1, c.2, obj.center, obj.bbox, obj.area⟩
  | .error _ => ⟨.non_meteor, 0, obj.center, obj.bbox, obj.area⟩

/-- Detector state: the `model_loaded` flag and the detection threshold
(default 0.5). -/
structure DetectorState where
  model_loaded : Bool
  detection_threshold : ℚ
deriving DecidableEq, Repr

/-- `AsteroidDetector.analyze_frame` (lines 35-54), the spec's
`detect_and_classify`: empty when the model is not loaded, else the
classifications of the filtered components whose confidence exceeds the
threshold. -/
def analyze_frame (st : DetectorState) (roiMean : DetObj → Except String ℚ)
    (contours : List Contour) : List Classification :=
  if st.model_loaded then
    ((detect_moving_objects contours).map (classify_object roiMean)).filter
      (fun c => decide (st.detection_threshold < c.confidence))
  else []

/-- `AsteroidDetector.set_detection_threshold` (lines 201-212), with an
explicit exception channel giving the Python call semantics: the method
never raises and never returns an error value; an out-of-range argument is
only logged as a warning, leaving the threshold unchanged. -/
def set_detection_threshold (st : DetectorState) (threshold : ℚ) :
    Except String DetectorState :=
  if 0 ≤ threshold ∧ threshold ≤ 1 then
    .ok ⟨st.model_loaded, threshold⟩
  else
    .ok st

/-- Whether the oracle succeeded on a component. -/
def exOk : Except String ℚ → Bool
  | .ok _ => true
  | .error _ => false

/-- An always-failing region oracle (for witnesses). -/
def rmErr : DetObj → Except String ℚ := fun _ => .error "roi failure"

/-- A sample detected object (aspect field 0, as for a zero-height box). -/
def obj0 : DetObj := ⟨120, (0, 0, 12, 10), 0, (6, 5)⟩

/-- The spec's documented default heuristic policy, transcribed from the
specification text for comparison with the code's
`heuristic_classification`. -/
def heuristic_policy_spec (brightness area aspect : ℚ) : ObjType × ℚ :=
  if 200 < brightness ∧ 100 < area then
    if 2 < aspect then (.meteor, 8/10)
    else if 500 < area then (.asteroid, 7/10)
    else (.meteor, 6/10)
  else if 150 < brightness then (.meteor, 5/10)
  else (.non_meteor, 9/10)


lemma setPos_setPos (s : ServoState) (a : Axis) (x y : ℚ) :
    setPos (setPos s a x) a y = setPos s a y := by
  cases a <;> rfl

lemma setPos_isInit (s : ServoState) (a : Axis) (v : ℚ) :
    (setPos s a v).isInit = s.isInit := by
  cases a <;> rfl

lemma setPos_gpioAvail (s : ServoState) (a : Axis) (v : ℚ) :
    (setPos s a v).gpioAvail = s.gpioAvail := by
  cases a <;> rfl

lemma getPos_setPos (s : ServoState) (a b : Axis) (v : ℚ) :
    getPos (setPos s a v) b = if b = a then v else getPos s b := by
  cases a <;> cases b <;> simp [getPos, setPos]

lemma move_move (s : ServoState) (a : Axis) (x y : ℚ) :
    move_servo_to_position (move_servo_to_position s a x) a y =
      move_servo_to_position s a y := by
  unfold move_servo_to_position
  by_cases h : (!s.isInit || !s.gpioAvail) = true
  · simp [h]
  · simp [h, setPos_isInit, setPos_gpioAvail, setPos_setPos]

lemma foldl_move_last (a : Axis) (g : ℕ → ℚ) (t : ℚ) :
    ∀ (l : List ℕ) (s : ServoState),
      move_servo_to_position
        (l.foldl (fun st i => move_servo_to_position st a (g i)) s) a t =
      move_servo_to_position s a t := by
  intro l
  induction l with
  | nil => intro s; rfl
  | cons i rest ih =>
    intro s
    simp only [List.foldl_cons]
    rw [ih, move_move]

lemma smooth_move_eq (s : ServoState) (a : Axis) (t : ℚ) :
    smooth_move s a t = move_servo_to_position s a t := by
  unfold smooth_move
  exact foldl_move_last a _ t _ s

lemma limits_le (a : Axis) : (limits a).1 ≤ (limits a).2 := by
  cases a <;> norm_num [limits]

lemma clampAngle_mem (a : Axis) (v : ℚ) :
    (limits a).1 ≤ clampAngle a v ∧ clampAngle a v ≤ (limits a).2 :=
  ⟨le_max_left _ _, max_le (limits_le a) (min_le_left _ _)⟩

lemma move_servo_to_position_inRange (s : ServoState) (a : Axis) (angle : ℚ)
    (h : inRange s) : inRange (move_servo_to_position s a angle) := by
  unfold move_servo_to_position
  by_cases hc : (!s.isInit || !s.gpioAvail) = true
  · simpa [hc] using h
  · rw [if_neg hc]
    intro b
    rcases eq_or_ne b a with hb | hb
    · subst hb
      rw [getPos_setPos]
      simp only [if_pos rfl]
      exact clampAngle_mem b angle
    · rw [getPos_setPos, if_neg hb]
      exact h b

lemma msp_preserve (s : ServoState) (a b : Axis) (v : ℚ) (h : b ≠ a) :
    getPos (move_servo_to_position s a v) b = getPos s b := by
  unfold move_servo_to_position
  by_cases hc : (!s.isInit || !s.gpioAvail) = true
  · rw [if_pos hc]
  · rw [if_neg hc, getPos_setPos, if_neg h]

lemma axisOfName_dish_azimuth : axisOfName "dish_azimuth" = some Axis.dishAzimuth := by
  decide

lemma axisOfName_dish_elevation : axisOfName "dish_elevation" = some Axis.dishElevation := by
  decide

lemma axisOfName_camera_pan : axisOfName "camera_pan" = some Axis.cameraPan := by
  decide

lemma axisOfName_camera_tilt : axisOfName "camera_tilt" = some Axis.cameraTilt := by
  decide

lemma move_servo_known (s : ServoState) (name : String) (a : Axis) (v : ℚ)
    (hn : axisOfName name = some a) :
    move_servo s name v true = (move_servo_to_position s a v, true) := by
  unfold move_servo
  rw [hn]
  simp [smooth_move_eq]

lemma move_servo_dish_azimuth (s : ServoState) (v : ℚ) :
    move_servo s "dish_azimuth" v true = (move_servo_to_position s .dishAzimuth v, true) :=
  move_servo_known s _ _ v axisOfName_dish_azimuth

lemma move_servo_dish_elevation (s : ServoState) (v : ℚ) :
    move_servo s "dish_elevation" v true = (move_servo_to_position s .dishElevation v, true) :=
  move_servo_known s _ _ v axisOfName_dish_elevation

lemma move_servo_camera_pan (s : ServoState) (v : ℚ) :
    move_servo s "camera_pan" v true = (move_servo_to_position s .cameraPan v, true) :=
  move_servo_known s _ _ v axisOfName_camera_pan

lemma move_servo_camera_tilt (s : ServoState) (v : ℚ) :
    move_servo s "camera_tilt" v true = (move_servo_to_position s .cameraTilt v, true) :=
  move_servo_known s _ _ v axisOfName_camera_tilt

lemma move_camera_eq (s : ServoState) (p t : ℚ) :
    (move_camera_to_coordinates s p t).1 =
      move_servo_to_position (move_servo_to_position s .cameraPan p) .cameraTilt t := by
  simp only [move_camera_to_coordinates, move_servo_camera_pan, move_servo_camera_tilt]

lemma move_dish_eq (s : ServoState) (az el : ℚ) :
    (move_dish_to_coordinates s az el).1 =
      move_servo_to_position
        (move_servo_to_position s .dishAzimuth (fmod az 360 * 180 / 360))
        .dishElevation el := by
  simp only [move_dish_to_coordinates, move_servo_dish_azimuth, move_servo_dish_elevation]

lemma primary_conf_ge (l : List Detection) : ∀ best : Detection,
    best.confidence ≤ (primary_detection best l).confidence := by
  induction l with
  | nil => intro best; exact le_refl _
  | cons d rest ih =>
    intro best
    simp only [primary_detection]
    by_cases h : best.confidence < d.confidence
    · rw [if_pos h]
      exact le_of_lt (lt_of_lt_of_le h (ih d))
    · rw [if_neg h]
      exact ih best

lemma primary_first_max (l : List Detection) : ∀ best : Detection,
    ∃ l₁ l₂, best :: l = l₁ ++ primary_detection best l :: l₂ ∧
      (∀ e ∈ l₁, e.confidence < (primary_detection best l).confidence) ∧
      (∀ e ∈ l₂, e.confidence ≤ (primary_detection best l).confidence) := by
  induction l with
  | nil =>
    intro best
    exact ⟨[], [], rfl, by simp, by simp⟩
  | cons d rest ih =>
    intro best
    simp only [primary_detection]
    by_cases h : best.confidence < d.confidence
    · rw [if_pos h]
      obtain ⟨l₁, l₂, heq, h₁, h₂⟩ := ih d
      refine ⟨best :: l₁, l₂, ?_, ?_, h₂⟩
      · rw [List.cons_append, ← heq]
      · intro e he
        rcases List.mem_cons.mp he with rfl | he'
        · exact lt_of_lt_of_le h (primary_conf_ge rest d)
        · exact h₁ e he'
    · rw [if_neg h]
      obtain ⟨l₁, l₂, heq, h₁, h₂⟩ := ih best
      cases l₁ with
      | nil =>
        simp only [List.nil_append] at heq
        injection heq with hb hl
        refine ⟨[], d :: rest, ?_, by simp, ?_⟩
        · rw [List.nil_append, ← hb]
        · intro e he
          rcases List.mem_cons.mp he with rfl | he'
          · rw [← hb]
            exact not_lt.mp h
          · exact h₂ e (hl ▸ he')
      | cons b l₁' =>
        rw [List.cons_append] at heq
        injection heq with hb hl
        have hbmem : best ∈ b :: l₁' := by
          rw [hb]
          exact List.mem_cons_self b l₁'
        have hb_lt := h₁ best hbmem
        refine ⟨best :: d :: l₁', l₂, ?_, ?_, h₂⟩
        · rw [List.cons_append, List.cons_append, ← hl]
        · intro e he
          rcases List.mem_cons.mp he with rfl | he'
          · exact hb_lt
          · rcases List.mem_cons.mp he' with rfl | he''
            · exact lt_of_le_of_lt (not_lt.mp h) hb_lt
            · exact h₁ e (List.mem_cons_of_mem b he'')

/-- Claim C8: `track_objects` invoked with an empty detection list returns
without moving any axis; the stored position of every axis is unchanged. -/
theorem c8_track_empty_noop : ∀ s : ServoState, track_objects s [] = s := by
  intro s
  rfl

lemma fmod_of_lt (a b : ℚ) (h0 : 0 ≤ a) (hab : a < b) : fmod a b = a := by
  have hb : 0 < b := lt_of_le_of_lt h0 hab
  have h1 : ⌊a / b⌋ = 0 := by
    rw [Int.floor_eq_zero_iff, Set.mem_Ico]
    exact ⟨div_nonneg h0 hb.le, (div_lt_one hb).mpr hab⟩
  unfold fmod
  rw [h1]
  push_cast
  ring

lemma track_cons_high (s : ServoState) (d : Detection) (rest : List Detection)
    (h : (primary_detection d rest).confidence > 8/10) :
    track_objects s (d :: rest) =
      (move_dish_to_coordinates
        (move_camera_to_coordinates s
          ((primary_detection d rest).coordinates.1 * 180)
          (30 + (primary_detection d rest).coordinates.2 * 120)).1
        ((primary_detection d rest).coordinates.1 * 180 * 2)
        (min 90 (30 + (primary_detection d rest).coordinates.2 * 120 - 30))).1 := by
  simp only [track_objects]
  rw [if_pos h]

lemma track_cons_low (s : ServoState) (d : Detection) (rest : List Detection)
    (h : ¬ (primary_detection d rest).confidence > 8/10) :
    track_objects s (d :: rest) =
      (move_camera_to_coordinates s
        ((primary_detection d rest).coordinates.1 * 180)
        (30 + (primary_detection d rest).coordinates.2 * 120)).1 := by
  simp only [track_objects]
  rw [if_neg h]

/-- Claim C2: when the winning confidence exceeds 0.8, `track_objects`
moves the dish axes in addition to the camera axes, deriving the dish
azimuth argument as camera-pan × 2 (wrapped by `% 360` and rescaled before
the axis clamp to [0, 180] is applied inside the dish move) and the dish
elevation as min(90, camera-tilt − 30); with confidence 0.85 and center
(1/2, 1/2) the camera targets are 90/90, the dish azimuth argument is 180
before clamping and the stored dish elevation is 60, while confidence 0.75
with the same center moves only the camera axes and leaves both dish axes
unchanged. -/
theorem c2_high_conf_dish_routing :
    (∀ (s : ServoState) (d : Detection) (rest : List Detection),
       (primary_detection d rest).confidence > 8/10 →
       track_objects s (d :: rest) =
         (move_dish_to_coordinates
            (move_camera_to_coordinates s
               ((primary_detection d rest).coordinates.1 * 180)
               (30 + (primary_detection d rest).coordinates.2 * 120)).1
            ((primary_detection d rest).coordinates.1 * 180 * 2)
            (min 90 (30 + (primary_detection d rest).coordinates.2 * 120 - 30))).1) ∧
    (∀ (s : ServoState) (d : Detection) (rest : List Detection),
       ¬ (primary_detection d rest).confidence > 8/10 →
       track_objects s (d :: rest) =
         (move_camera_to_coordinates s
            ((primary_detection d rest).coordinates.1 * 180)
            (30 + (primary_detection d rest).coordinates.2 * 120)).1) ∧
    track_objects initServo [⟨85/100, (1/2, 1/2)⟩] =
      (move_dish_to_coordinates (move_camera_to_coordinates initServo 90 90).1 180 60).1 ∧
    (track_objects initServo [⟨85/100, (1/2, 1/2)⟩]).camera_pan = 90 ∧
    (track_objects initServo [⟨85/100, (1/2, 1/2)⟩]).camera_tilt = 90 ∧
    (track_objects initServo [⟨85/100, (1/2, 1/2)⟩]).dish_elevation = 60 ∧
    (∀ s : ServoState,
       getPos (track_objects s [⟨75/100, (1/2, 1/2)⟩]) .dishAzimuth =
         getPos s .dishAzimuth ∧
       getPos (track_objects s [⟨75/100, (1/2, 1/2)⟩]) .dishElevation =
         getPos s .dishElevation) ∧
    (track_objects initServo [⟨75/100, (1/2, 1/2)⟩]).camera_pan = 90 ∧
    (track_objects initServo [⟨75/100, (1/2, 1/2)⟩]).camera_tilt = 90 := by
  have hc85 : (primary_detection ⟨85/100, (1/2, 1/2)⟩ ([] : List Detection)).confidence
      > 8/10 := by
    norm_num [primary_detection]
  have hc75 : ¬ (primary_detection ⟨75/100, (1/2, 1/2)⟩ ([] : List Detection)).confidence
      > 8/10 := by
    norm_num [primary_detection]
  have e2 : (move_camera_to_coordinates initServo 90 90).1 = initServo := by
    rw [move_camera_eq]
    norm_num [move_servo_to_position, initServo, setPos, clampAngle, limits, getPos,
      min_def, max_def]
  have e3 : (move_dish_to_coordinates initServo 180 60).1 = ⟨true, true, 90, 60, 90, 90⟩ := by
    rw [move_dish_eq, fmod_of_lt 180 360 (by norm_num) (by norm_num)]
    norm_num [move_servo_to_position, initServo, setPos, clampAngle, limits, getPos,
      min_def, max_def]
  have e085 : track_objects initServo [⟨85/100, (1/2, 1/2)⟩] = ⟨true, true, 90, 60, 90, 90⟩ := by
    rw [track_cons_high initServo _ [] hc85]
    norm_num [primary_detection, min_def]
    rw [e2]
    exact e3
  have e075 : track_objects initServo [⟨75/100, (1/2, 1/2)⟩] = initServo := by
    rw [track_cons_low initServo _ [] hc75]
    norm_num [primary_detection]
    exact e2
  refine ⟨track_cons_high, track_cons_low, ?_, ?_, ?_, ?_, ?_, ?_, ?_⟩
  · rw [e085, e2]
    exact e3.symm
  · rw [e085]
  · rw [e085]
  · rw [e085]
  · intro s
    constructor
    · rw [track_cons_low _ _ _ hc75, move_camera_eq,
        msp_preserve _ .cameraTilt .dishAzimuth _ (by decide),
        msp_preserve _ .cameraPan .dishAzimuth _ (by decide)]
    · rw [track_cons_low _ _ _ hc75, move_camera_eq,
        msp_preserve _ .cameraTilt .dishElevation _ (by decide),
        msp_preserve _ .cameraPan .dishElevation _ (by decide)]
  · rw [e075]
    rfl
  · rw [e075]
    rfl

theorem c2_high_conf_dish_routing_witness :
    track_objects initServo [⟨85/100, (1/2, 1/2)⟩] =
      (move_dish_to_coordinates
        (move_camera_to_coordinates initServo (1/2 * 180) (30 + 1/2 * 120)).1
        (1/2 * 180 * 2) (min 90 (30 + 1/2 * 120 - 30))).1 ∧
    track_objects initServo [⟨75/100, (1/2, 1/2)⟩] =
      (move_camera_to_coordinates initServo (1/2 * 180) (30 + 1/2 * 120)).1 :=
  ⟨c2_high_conf_dish_routing.1 initServo ⟨85/100, (1/2, 1/2)⟩ []
      (by norm_num [primary_detection]),
   c2_high_conf_dish_routing.2.1 initServo ⟨75/100, (1/2, 1/2)⟩ []
      (by norm_num [primary_detection])⟩

/-- Claim C3: `track_objects` selects the detection with maximum
confidence among the inputs, ties broken by first-seen order (the winner
splits the list into a strictly-smaller prefix and a no-larger suffix),
and maps the winner's normalized center (x, y) to camera-pan = x × 180 and
camera-tilt = 30 + y × 120; in particular with confidences
[0.3, 0.9, 0.6] the 0.9 detection's coordinates determine the camera
targets. -/
theorem c3_max_confidence_selection :
    (∀ (d : Detection) (rest : List Detection),
       ∃ l₁ l₂, d :: rest = l₁ ++ primary_detection d rest :: l₂ ∧
         (∀ e ∈ l₁, e.confidence < (primary_detection d rest).confidence) ∧
         (∀ e ∈ l₂, e.confidence ≤ (primary_detection d rest).confidence)) ∧
    (∀ (s : ServoState) (d : Detection) (rest : List Detection),
       getPos (track_objects s (d :: rest)) .cameraPan =
         getPos (move_camera_to_coordinates s
           ((primary_detection d rest).coordinates.1 * 180)
           (30 + (primary_detection d rest).coordinates.2 * 120)).1 .cameraPan ∧
       getPos (track_objects s (d :: rest)) .cameraTilt =
         getPos (move_camera_to_coordinates s
           ((primary_detection d rest).coordinates.1 * 180)
           (30 + (primary_detection d rest).coordinates.2 * 120)).1 .cameraTilt) ∧
    (∀ p q r : ℚ × ℚ,
       primary_detection ⟨3/10, p⟩ [⟨9/10, q⟩, ⟨6/10, r⟩] = ⟨9/10, q⟩) := by
  refine ⟨fun d rest => primary_first_max rest d, ?_, ?_⟩
  · intro s d rest
    by_cases h : (primary_detection d rest).confidence > 8/10
    · rw [track_cons_high _ _ _ h]
      constructor
      · rw [move_dish_eq,
          msp_preserve _ .dishElevation .cameraPan _ (by decide),
          msp_preserve _ .dishAzimuth .cameraPan _ (by decide)]
      · rw [move_dish_eq,
          msp_preserve _ .dishElevation .cameraTilt _ (by decide),
          msp_preserve _ .dishAzimuth .cameraTilt _ (by decide)]
    · rw [track_cons_low _ _ _ h]
      exact ⟨rfl, rfl⟩
  · intro p q r
    simp only [primary_detection]
    norm_num

/-- Claim C10: for every known axis and target angle, the smooth stepping
path and the direct path leave the controller in the same final state; in
particular `move_servo` with `smooth=true` equals `move_servo` with
`smooth=false`. -/
theorem c10_smooth_eq_direct :
    (∀ (s : ServoState) (a : Axis) (t : ℚ),
       smooth_move s a t = move_servo_to_position s a t) ∧
    (∀ (s : ServoState) (name : String) (angle : ℚ),
       move_servo s name angle true = move_servo s name angle false) := by
  refine ⟨smooth_move_eq, ?_⟩
  intro s name angle
  unfold move_servo
  cases axisOfName name with
  | none => rfl
  | some a => simp [smooth_move_eq]

/-- Claim C5: `move_servo` with a name that is none of the four known axis
names returns an unsuccessful result (`false`, not an exception) and
leaves the whole positioner state unchanged. -/
theorem c5_unknown_axis_rejected :
    ∀ (s : ServoState) (name : String) (angle : ℚ) (smooth : Bool),
      name ≠ "dish_azimuth" → name ≠ "dish_elevation" →
      name ≠ "camera_pan" → name ≠ "camera_tilt" →
      move_servo s name angle smooth = (s, false) := by
  intro s name angle smooth h1 h2 h3 h4
  unfold move_servo axisOfName
  simp [h1, h2, h3, h4]

theorem c5_unknown_axis_rejected_witness :
    move_servo initServo "foo" 42 true = (initServo, false) :=
  c5_unknown_axis_rejected initServo "foo" 42 true
    (by decide) (by decide) (by decide) (by decide)

/-- Claim C1 (amended): for the real `ServoController`, any `move_servo`
call (smooth or direct, any name, any target angle including out-of-range
ones) preserves the invariant that every stored axis angle lies within its
declared inclusive limits; the same holds for a direct
`_move_servo_to_position` call on a known axis.  (The mock variant does
not clamp; see the counterexample.) -/
theorem c1_real_clamp_invariant :
    (∀ (s : ServoState) (name : String) (angle : ℚ) (smooth : Bool),
       inRange s → inRange (move_servo s name angle smooth).1) ∧
    (∀ (s : ServoState) (a : Axis) (angle : ℚ),
       inRange s → inRange (move_servo_to_position s a angle)) := by
  refine ⟨?_, move_servo_to_position_inRange⟩
  intro s name angle smooth h
  unfold move_servo
  cases axisOfName name with
  | none => simpa using h
  | some a =>
    cases smooth with
    | false => exact move_servo_to_position_inRange s a angle h
    | true =>
      simpa [smooth_move_eq] using move_servo_to_position_inRange s a angle h

theorem c1_real_clamp_invariant_witness :
    inRange initServo ∧ inRange (move_servo initServo "camera_tilt" 500 true).1 :=
  ⟨by decide, c1_real_clamp_invariant.1 initServo "camera_tilt" 500 true (by decide)⟩

/-- Claim C1 counterexample: the mock positioner stores the requested
angle without clamping, so moving camera-tilt to 200 leaves a stored angle
outside the declared range [30, 150]. -/
theorem c1_mock_counterexample :
    (mock_move_servo_to_position mockInit Axis.cameraTilt 200).camera_tilt = 200 ∧
    ¬ ((mock_move_servo_to_position mockInit Axis.cameraTilt 200).camera_tilt ≤
        (limits Axis.cameraTilt).2) := by
  constructor
  · rfl
  · decide

/-- Claim C4 (amended): `set_detection_threshold` with an argument outside
[0, 1] is rejected silently — the call returns normally (no
InvalidArgument error is signalled; only a warning is logged) and the
stored threshold is unchanged; with an argument inside [0, 1] the
threshold is updated to it. -/
theorem c4_threshold_silent_reject :
    (∀ (st : DetectorState) (t : ℚ), t < 0 ∨ 1 < t →
       set_detection_threshold st t = Except.ok st) ∧
    (∀ (st : DetectorState) (t : ℚ), 0 ≤ t → t ≤ 1 →
       set_detection_threshold st t = Except.ok ⟨st.model_loaded, t⟩) := by
  constructor
  · intro st t ht
    unfold set_detection_threshold
    rw [if_neg]
    rcases ht with h | h
    · exact fun hc => absurd hc.1 (not_le.mpr h)
    · exact fun hc => absurd hc.2 (not_le.mpr h)
  · intro st t h0 h1
    unfold set_detection_threshold
    rw [if_pos ⟨h0, h1⟩]

theorem c4_threshold_silent_reject_witness :
    set_detection_threshold ⟨true, 1/2⟩ 2 = Except.ok ⟨true, 1/2⟩ ∧
    set_detection_threshold ⟨true, 1/2⟩ (3/4) = Except.ok ⟨true, 3/4⟩ :=
  ⟨c4_threshold_silent_reject.1 ⟨true, 1/2⟩ 2 (Or.inr (by norm_num)),
   c4_threshold_silent_reject.2 ⟨true, 1/2⟩ (3/4) (by norm_num) (by norm_num)⟩

/-- Claim C4 counterexample: calling the threshold setter with 3/2 ∉ [0,1]
does not fail with any error — it returns normally (`Except.ok`) with the
stored threshold 1/2 unchanged, refuting the claimed InvalidArgument
failure. -/
theorem c4_counterexample :
    set_detection_threshold ⟨true, 1/2⟩ (3/2) = Except.ok ⟨true, 1/2⟩ := by
  unfold set_detection_threshold
  rw [if_neg]
  norm_num

/-- Claim C6: the default classification heuristic agrees everywhere with
the spec's documented policy (brightness>200 ∧ area>100 →
aspect>2 ⇒ Meteor@0.8, else area>500 ⇒ Asteroid@0.7, else Meteor@0.6;
else brightness>150 ⇒ Meteor@0.5; otherwise NonMeteor@0.9), and a
component with area 120, aspect ratio 2.5 and mean brightness 220
classifies as Meteor with confidence 0.8. -/
theorem c6_default_heuristic :
    (∀ area aspect brightness : ℚ,
       heuristic_classification area aspect brightness =
         heuristic_policy_spec brightness area aspect) ∧
    heuristic_classification 120 (5/2) 220 = (ObjType.meteor, 8/10) := by
  constructor
  · intro a r b
    rfl
  · unfold heuristic_classification
    rw [if_pos (by norm_num : (200:ℚ) < 220 ∧ (100:ℚ) < 120),
       if_pos (by norm_num : (2:ℚ) < 5/2)]

/-- Claim C7: every classification returned by `analyze_frame` (the
spec's `detect_and_classify`) stems from a component with area strictly
between 50 and 5000, and already `detect_moving_objects` only outputs
such components — components with area ≤ 50 or ≥ 5000 are rejected. -/
theorem c7_area_filter :
    (∀ (contours : List Contour) (o : DetObj),
       o ∈ detect_moving_objects contours → 50 < o.area ∧ o.area < 5000) ∧
    (∀ (st : DetectorState) (rm : DetObj → Except String ℚ)
       (contours : List Contour) (c : Classification),
       c ∈ analyze_frame st rm contours → 50 < c.area ∧ c.area < 5000) := by
  have hobj : ∀ (contours : List Contour) (o : DetObj),
      o ∈ detect_moving_objects contours → 50 < o.area ∧ o.area < 5000 := by
    intro contours o ho
    unfold detect_moving_objects at ho
    rw [List.mem_filterMap] at ho
    obtain ⟨c, _, hco⟩ := ho
    by_cases h : 50 < c.area ∧ c.area < 5000
    · rw [if_pos h] at hco
      obtain rfl := Option.some.inj hco
      exact h
    · rw [if_neg h] at hco
      exact Option.noConfusion hco
  refine ⟨hobj, ?_⟩
  intro st rm contours c hc
  unfold analyze_frame at hc
  by_cases hm : st.model_loaded = true
  · rw [if_pos hm] at hc
    rw [List.mem_filter] at hc
    obtain ⟨hmem, _⟩ := hc
    rw [List.mem_map] at hmem
    obtain ⟨o, ho, rfl⟩ := hmem
    have harea : (classify_object rm o).area = o.area := by
      unfold classify_object
      cases rm o <;> rfl
    rw [harea]
    exact hobj contours o ho
  · rw [if_neg hm] at hc
    exact absurd hc (List.not_mem_nil c)

theorem c7_area_filter_witness :
    50 < (⟨120, (0, 0, 12, 10),
            if (0:ℤ) < 10 then ((12:ℤ) : ℚ) / ((10:ℤ) : ℚ) else 0,
            (0 + Int.fdiv 12 2, 0 + Int.fdiv 10 2)⟩ : DetObj).area ∧
    (⟨120, (0, 0, 12, 10),
        if (0:ℤ) < 10 then ((12:ℤ) : ℚ) / ((10:ℤ) : ℚ) else 0,
        (0 + Int.fdiv 12 2, 0 + Int.fdiv 10 2)⟩ : DetObj).area < 5000 :=
  c7_area_filter.1 [⟨120, 0, 0, 12, 10⟩] _
    (by
      unfold detect_moving_objects
      rw [List.filterMap_cons, if_pos (by norm_num : (50:ℚ) < 120 ∧ (120:ℚ) < 5000)]
      exact List.mem_singleton.mpr rfl)

lemma classify_object_error (rm : DetObj → Except String ℚ) (o : DetObj)
    (msg : String) (h : rm o = .error msg) :
    classify_object rm o = ⟨.non_meteor, 0, o.center, o.bbox, o.area⟩ := by
  unfold classify_object
  rw [h]

lemma skip_errors (rm : DetObj → Except String ℚ) (thr : ℚ) (hthr : 0 ≤ thr) :
    ∀ l : List DetObj,
      (l.map (classify_object rm)).filter (fun c => decide (thr < c.confidence)) =
        ((l.filter (fun o => exOk (rm o))).map (classify_object rm)).filter
          (fun c => decide (thr < c.confidence)) := by
  intro l
  induction l with
  | nil => rfl
  | cons o t ih =>
    cases hro : rm o with
    | ok b =>
      have hq : exOk (rm o) = true := by rw [hro]; rfl
      rw [List.map_cons, List.filter_cons,
        @List.filter_cons_of_pos _ (fun x => exOk (rm x)) o t hq,
        List.map_cons, List.filter_cons, ih]
    | error msg =>
      have hq : exOk (rm o) = false := by rw [hro]; rfl
      have hconf : (classify_object rm o).confidence = 0 := by
        rw [classify_object_error rm o msg hro]
      have hp : decide (thr < (classify_object rm o).confidence) = false := by
        rw [hconf]
        exact decide_eq_false (not_lt.mpr hthr)
      rw [List.map_cons,
        @List.filter_cons_of_neg _ (fun c => decide (thr < c.confidence))
          (classify_object rm o) (List.map (classify_object rm) t) (by simp [hp]),
        @List.filter_cons_of_neg _ (fun x => exOk (rm x)) o t (by simp [hq]),
        ih]

/-- Claim C9: `analyze_frame` (the spec's `detect_and_classify`) is total
— an error in the per-component region work is caught locally, that
component contributes only a confidence-0 fallback which the threshold
filter removes (whenever the threshold is ≥ 0, as it always is), the
remaining components are still processed, and the surviving
classifications are returned. -/
theorem c9_error_isolation :
    (∀ (rm : DetObj → Except String ℚ) (o : DetObj) (msg : String),
       rm o = .error msg →
       classify_object rm o = ⟨.non_meteor, 0, o.center, o.bbox, o.area⟩) ∧
    (∀ (st : DetectorState) (rm : DetObj → Except String ℚ)
       (contours : List Contour),
       0 ≤ st.detection_threshold →
       analyze_frame st rm contours =
         if st.model_loaded then
           (((detect_moving_objects contours).filter (fun o => exOk (rm o))).map
              (classify_object rm)).filter
             (fun c => decide (st.detection_threshold < c.confidence))
         else []) := by
  refine ⟨classify_object_error, ?_⟩
  intro st rm contours hthr
  unfold analyze_frame
  by_cases hm : st.model_loaded = true
  · rw [if_pos hm, if_pos hm, skip_errors rm st.detection_threshold hthr]
  · rw [if_neg hm, if_neg hm]

theorem c9_error_isolation_witness :
    classify_object rmErr obj0 = ⟨.non_meteor, 0, obj0.center, obj0.bbox, obj0.area⟩ ∧
    analyze_frame ⟨true, 1/2⟩ rmErr [⟨120, 0, 0, 12, 10⟩] =
      if (⟨true, 1/2⟩ : DetectorState).model_loaded then
        (((detect_moving_objects [⟨120, 0, 0, 12, 10⟩]).filter
            (fun o => exOk (rmErr o))).map (classify_object rmErr)).filter
          (fun c =>
            decide ((⟨true, 1/2⟩ : DetectorState).detection_threshold < c.confidence))
      else [] :=
  ⟨c9_error_isolation.1 rmErr obj0 "roi failure" rfl,
   c9_error_isolation.2 ⟨true, 1/2⟩ rmErr [⟨120, 0, 0, 12, 10⟩] (by norm_num)⟩

end Firmware
